import Mathlib

/-!
Shallow embedding of `main.py` from the fatebook-mcp repository.

Each MCP tool in `main.py` is an async Python function that resolves an API
key, optionally validates its arguments, issues at most one HTTP request via
`httpx`, and returns a `str`.  Here every tool becomes a pure Lean function
whose extra parameters are the process environment (the value of the
`FATEBOOK_API_KEY` environment variable, `none` when unset) and the outcome
the single HTTP request would have (success with a body / payload, an
`httpx.HTTPError`, or any other exception caught by the generic
`except Exception` clause).  The function returns the tool's result string
together with the list of HTTP requests it issued, so that "no network call
is made" is the statement that this list is empty.

Python `str` values are modelled as Lean `String`; Python `float` forecast
values are modelled as `ℚ` (the program only compares them against the
integer bounds 0 and 1, where IEEE-754 comparison agrees with the rational
order).  Python string routines used by the source (`strip`, `startswith`,
`replace`, `in`, `rsplit(sep, 1)`) are modelled executably below on
`List Char`.
-/

namespace Fatebook

/-- Helper for Python `sub in s` and `s.rsplit(sep, 1)`: split `s` at the
first (leftmost) occurrence of `sep`, returning the parts before and after
it, or `none` when `sep` does not occur in `s`. -/
def splitFirst (sep : List Char) : List Char → Option (List Char × List Char)
  | [] => if sep.isPrefixOf ([] : List Char) then some ([], []) else none
  | c :: cs =>
    if sep.isPrefixOf (c :: cs) then some ([], (c :: cs).drop sep.length)
    else (splitFirst sep cs).map (fun p => (c :: p.1, p.2))

/-- Python `sub in s` (substring containment), as a Bool. -/
def occursB (sep s : List Char) : Bool := (splitFirst sep s).isSome

/-- Worker for Python `s.replace(old, new)`: scan `s` left to right; `skip`
counts characters of an already-replaced occurrence that remain to be
consumed without rescanning. -/
def replaceGo (old new : List Char) : List Char → Nat → List Char
  | [], _ => []
  | _ :: cs, skip + 1 => replaceGo old new cs skip
  | c :: cs, 0 =>
    if old ≠ [] ∧ old.isPrefixOf (c :: cs) then
      new ++ replaceGo old new cs (old.length - 1)
    else
      c :: replaceGo old new cs 0

/-- Python `s.replace(old, new)` (replaces every occurrence, left to right);
the source only calls it with a non-empty `old`. -/
def replaceAllL (old new s : List Char) : List Char := replaceGo old new s 0

/-- Python `s.strip()` on the character list: drop leading and trailing
whitespace (the source strips an HTTP body, which is ASCII). -/
def pyStripL (s : List Char) : List Char :=
  ((s.dropWhile Char.isWhitespace).reverse.dropWhile Char.isWhitespace).reverse

/-- Python `s.strip()`. -/
def pyStrip (s : String) : String := ⟨pyStripL s.data⟩

/-- Python `s.startswith(p)`. -/
def pyStartswith (s p : String) : Bool := p.data.isPrefixOf s.data

/-- Python `sub in s`. -/
def pyContains (s sub : String) : Bool := occursB sub.data s.data

/-- Python `s.replace(old, new)`. -/
def pyReplaceAll (s old new : String) : String := ⟨replaceAllL old.data new.data s.data⟩

/-- Python `s.rsplit(sep, 1)` when `sep` occurs in `s`: split at the last
occurrence of `sep`, computed as the first occurrence of the reversed
separator in the reversed string.  The source guards the call with
`if sep in s`, so the `none` fallback is never reached there. -/
def pyRsplitOnce (s sep : String) : String × String :=
  match splitFirst sep.data.reverse s.data.reverse with
  | some (a, b) => (⟨b.reverse⟩, ⟨a.reverse⟩)
  | none => (s, "")

/-- Values that `main.py` places into request parameter / JSON-body dicts. -/
inductive PyVal where
  | s (v : String)
  | num (v : ℚ)
  | int (v : Int)
  | b (v : Bool)
deriving DecidableEq

/-- Whether the payload travels as query parameters (`params=`) or as a JSON
body (`json=`) in the `httpx` call. -/
inductive BodyKind where
  | queryParams
  | jsonBody
deriving DecidableEq

/-- One outbound HTTP request as built by a tool, with its payload dict in
insertion order. -/
structure HttpRequest where
  method : String
  url : String
  kind : BodyKind
  payload : List (String × PyVal)
deriving DecidableEq

/-- Association lookup in a payload dict (first binding wins). -/
def lookupKey (k : String) : List (String × PyVal) → Option PyVal
  | [] => none
  | (k', v) :: rest => if k' = k then some v else lookupKey k rest

/-- Every request in the given tool output carries `k` as its `apiKey`
payload entry. -/
def sentWithKey (k : String) (out : String × List HttpRequest) : Prop :=
  ∀ r ∈ out.2, lookupKey "apiKey" r.payload = some (PyVal.s k)

/-- Outcome of the single HTTP request for the tools that read
`response.text`: a 2xx response with the given body, an `httpx.HTTPError`
(raised by the transport or by `raise_for_status`), or any other exception
reaching the generic `except Exception` handler. -/
inductive TextResp where
  | success (body : String)
  | httpError (e : String)
  | exn (e : String)

/-- A `user` sub-dict as read by `format_question`: only `name` is accessed,
via `.get("name", "Unknown")`. -/
structure UserJson where
  name : Option String := none
deriving DecidableEq

/-- One element of the `forecasts` array: `format_question` reads
`forecast.get("forecast", 0)` (coerced by `float(...)`, modelled as `ℚ`)
and `forecast.get("user", {}).get("name", "Unknown")`. -/
structure ForecastJson where
  forecast : Option ℚ := none
  user : Option UserJson := none
deriving DecidableEq

/-- One element of the `tags` array: the source indexes `tag["name"]`
directly (so a tag without a name would raise; the field is modelled as
always present). -/
structure TagJson where
  name : String
deriving DecidableEq

/-- One element of the `comments` array: the source reads
`comment.get("user", {}).get("name", "Unknown")` and
`comment.get("comment", "")`. -/
structure CommentJson where
  user : Option UserJson := none
  comment : Option String := none
deriving DecidableEq

/-- A question dict as decoded from a JSON response body.  Every field the
source reads with `.get` is an `Option` (`none` models an absent key); the
source never mutates these dicts. -/
structure QuestionJson where
  id : Option String := none
  title : Option String := none
  type : Option String := none
  createdAt : Option String := none
  resolveBy : Option String := none
  resolved : Option Bool := none
  resolution : Option String := none
  resolvedAt : Option String := none
  notes : Option String := none
  forecasts : Option (List ForecastJson) := none
  tags : Option (List TagJson) := none
  comments : Option (List CommentJson) := none
  sharedPublicly : Option Bool := none
  unlisted : Option Bool := none
deriving DecidableEq

/-- The `QuestionFormat` enum of `main.py`. -/
inductive QuestionFormat where
  | SHORT
  | DETAILED
deriving DecidableEq

/-- Python's `f"{v:.0%}"` formatting of a forecast value: multiply by 100 and
round to the nearest integer, ties to even (the float value is modelled as
the rational it denotes). -/
def roundHalfToEven (q : ℚ) : ℤ :=
  let f : ℤ := ⌊q⌋
  if q - f < 1/2 then f
  else if 1/2 < q - f then f + 1
  else if f % 2 = 0 then f else f + 1

/-- Percent formatting `f"{forecast_val:.0%}"` used in the detailed view. -/
def pctFormat (v : ℚ) : String := toString (roundHalfToEven (v * 100)) ++ "%"

/-- Python truthiness of an optional string (`None` and `""` are falsy). -/
def truthyStr (o : Option String) : Bool := (o.getD "") ≠ ""

/-- Short formatting branch of `format_question`. -/
def formatQuestionShort (question : QuestionJson) : String :=
  let status := if question.resolved.getD false then "✅ RESOLVED" else "⏳ OPEN"
  let resolution :=
    if question.resolved.getD false then " (" ++ question.resolution.getD "N/A" ++ ")" else ""
  let forecast_count := (question.forecasts.getD []).length
  let forecast_text :=
    " | " ++ toString forecast_count ++ " forecast" ++ (if forecast_count ≠ 1 then "s" else "")
  let tags := String.intercalate ", " ((question.tags.getD []).map TagJson.name)
  let tags_text := if tags ≠ "" then " | Tags: " ++ tags else ""
  "**" ++ question.title.getD "N/A" ++ "**\n" ++ status ++ resolution
    ++ " | ID: " ++ question.id.getD "N/A" ++ forecast_text ++ tags_text

/-- Detailed formatting branch of `format_question`: builds the `lines`
list in source order and joins it with newlines. -/
def formatQuestionDetailed (question : QuestionJson) : String :=
  let lines : List String :=
    ["**" ++ question.title.getD "N/A" ++ "**",
     "ID: " ++ question.id.getD "N/A",
     "Type: " ++ question.type.getD "N/A",
     "Created: " ++ question.createdAt.getD "N/A",
     "Resolve By: " ++ question.resolveBy.getD "N/A"]
  let status0 := if question.resolved.getD false then "✅ Resolved" else "⏳ Open"
  let status :=
    if question.resolved.getD false then
      status0 ++ " as " ++ question.resolution.getD "N/A" ++ " on "
        ++ question.resolvedAt.getD "N/A"
    else status0
  let lines := lines ++ ["Status: " ++ status]
  let lines :=
    if truthyStr question.notes then lines ++ ["Notes: " ++ question.notes.getD ""] else lines
  let forecasts := question.forecasts.getD []
  let lines :=
    if forecasts ≠ [] then
      lines ++ ("Forecasts (" ++ toString forecasts.length ++ "):")
        :: forecasts.map (fun forecast =>
            "  • " ++ ((forecast.user.getD {}).name.getD "Unknown") ++ ": "
              ++ pctFormat (forecast.forecast.getD 0))
    else lines
  let tags := question.tags.getD []
  let lines :=
    if tags ≠ [] then
      lines ++ ["Tags: " ++ String.intercalate ", " (tags.map TagJson.name)]
    else lines
  let comments := question.comments.getD []
  let lines :=
    if comments ≠ [] then
      lines ++ ("Comments (" ++ toString comments.length ++ "):")
        :: comments.map (fun comment =>
            "  • " ++ ((comment.user.getD {}).name.getD "Unknown") ++ ": "
              ++ comment.comment.getD "")
    else lines
  let visibility :=
    (if question.sharedPublicly.getD false then ["Public"] else [])
      ++ (if question.unlisted.getD false then ["Unlisted"] else [])
  let lines :=
    if visibility ≠ [] then
      lines ++ ["Visibility: " ++ String.intercalate ", " visibility]
    else lines
  String.intercalate "\n" lines

/-- The `format_question` helper of `main.py` (its final `else` branch is
unreachable because the enum has exactly the two members matched here). -/
def format_question (question : QuestionJson) (format : QuestionFormat) : String :=
  match format with
  | .SHORT => formatQuestionShort question
  | .DETAILED => formatQuestionDetailed question

/-- The error message returned by every credential check in `main.py`. -/
def apiKeyError : String :=
  "Error: API key is required (provide as parameter or set FATEBOOK_API_KEY environment variable)"

/-- Credential resolution `api_key = apiKey or os.getenv("FATEBOOK_API_KEY")`:
the per-call argument when it is non-empty, else the environment value (an
unset variable is modelled as `""`, which Python's subsequent
`if not api_key:` treats exactly like `None`). -/
def resolveApiKey (apiKey : String) (env : Option String) : String :=
  if apiKey ≠ "" then apiKey else env.getD ""

/-- Outcome of the single request of `list_questions`: on 2xx the decoded
JSON dict, of which the source reads only `data.get('items', [])`. -/
inductive QuestionsResp where
  | success (items : Option (List QuestionJson))
  | httpError (e : String)
  | exn (e : String)

/-- The `list_questions` tool.  The `ctx.info` / `ctx.debug` / `ctx.error`
logging calls of the source have no effect on the returned value and are not
modelled. -/
def list_questions (apiKey : String) (resolved unresolved : Bool) (searchString : String)
    (limit : Int) (cursor : String) (env : Option String) (resp : QuestionsResp) :
    String × List HttpRequest :=
  let api_key := resolveApiKey apiKey env
  if api_key = "" then (apiKeyError, [])
  else
    let params := [("apiKey", PyVal.s api_key)]
      ++ (if resolved then [("resolved", PyVal.b resolved)] else [])
      ++ (if unresolved then [("unresolved", PyVal.b unresolved)] else [])
      ++ (if searchString ≠ "" then [("searchString", PyVal.s searchString)] else [])
      ++ [("limit", PyVal.int limit)]
      ++ (if cursor ≠ "" then [("cursor", PyVal.s cursor)] else [])
    let req : HttpRequest :=
      ⟨"GET", "https://fatebook.io/api/v0/getQuestions", .queryParams, params⟩
    match resp with
    | .success items =>
      let questions := items.getD []
      if questions = [] then ("No questions found.", [req])
      else
        (String.intercalate "\n\n"
          (questions.map (fun question => format_question question .SHORT)), [req])
    | .httpError e => ("HTTP error: " ++ e, [req])
    | .exn e => ("Error: " ++ e, [req])

/-- Outcome of the single request of `get_question`: on 2xx the decoded
question dict. -/
inductive QuestionResp where
  | success (question : QuestionJson)
  | httpError (e : String)
  | exn (e : String)

/-- The `get_question` tool. -/
def get_question (questionId : String) (apiKey : String) (env : Option String)
    (resp : QuestionResp) : String × List HttpRequest :=
  let api_key := resolveApiKey apiKey env
  if api_key = "" then (apiKeyError, [])
  else
    let req : HttpRequest :=
      ⟨"GET", "https://fatebook.io/api/v0/getQuestion", .queryParams,
        [("apiKey", PyVal.s api_key), ("questionId", PyVal.s questionId)]⟩
    match resp with
    | .success question => (format_question question .DETAILED, [req])
    | .httpError e => ("HTTP error: " ++ e, [req])
    | .exn e => ("Error: " ++ e, [req])

/-- Literal list `valid_resolutions = ["YES", "NO", "AMBIGUOUS"]`. -/
def valid_resolutions : List String := ["YES", "NO", "AMBIGUOUS"]

/-- The `resolve_question` tool.  The error message interpolates the Python
`repr` of `valid_resolutions`. -/
def resolve_question (questionId resolution questionType apiKey : String)
    (env : Option String) (resp : TextResp) : String × List HttpRequest :=
  let api_key := resolveApiKey apiKey env
  if api_key = "" then (apiKeyError, [])
  else if resolution ∉ valid_resolutions then
    ("Error: resolution must be one of ['YES', 'NO', 'AMBIGUOUS']", [])
  else
    let data := [("questionId", PyVal.s questionId), ("resolution", PyVal.s resolution),
                 ("questionType", PyVal.s questionType), ("apiKey", PyVal.s api_key)]
    let req : HttpRequest := ⟨"POST", "https://fatebook.io/api/v0/resolveQuestion", .jsonBody, data⟩
    match resp with
    | .success body => ("Question resolved successfully: " ++ body, [req])
    | .httpError e => ("HTTP error: " ++ e, [req])
    | .exn e => ("Error: " ++ e, [req])

/-- Base of the creation URL parsed by `create_question`. -/
def fatebookQBase : String := "https://fatebook.io/q/"

/-- The `create_question` tool, including its response-URL parsing. -/
def create_question (title resolveBy : String) (forecast : ℚ) (apiKey : String)
    (tags : List String) (sharePublicly : Bool) (shareWithLists shareWithEmail : List String)
    (hideForecastsUntil : String) (env : Option String) (resp : TextResp) :
    String × List HttpRequest :=
  let api_key := resolveApiKey apiKey env
  if api_key = "" then (apiKeyError, [])
  else if ¬ (0 ≤ forecast ∧ forecast ≤ 1) then
    ("Error: forecast must be between 0 and 1", [])
  else
    let params := [("apiKey", PyVal.s api_key), ("title", PyVal.s title),
                   ("resolveBy", PyVal.s resolveBy), ("forecast", PyVal.num forecast)]
      ++ (if tags ≠ [] then [("tags", PyVal.s (String.intercalate "," tags))] else [])
      ++ (if sharePublicly then [("sharePublicly", PyVal.b sharePublicly)] else [])
      ++ (if shareWithLists ≠ [] then
            [("shareWithLists", PyVal.s (String.intercalate "," shareWithLists))] else [])
      ++ (if shareWithEmail ≠ [] then
            [("shareWithEmail", PyVal.s (String.intercalate "," shareWithEmail))] else [])
      ++ (if hideForecastsUntil ≠ "" then
            [("hideForecastsUntil", PyVal.s hideForecastsUntil)] else [])
    let req : HttpRequest :=
      ⟨"POST", "https://fatebook.io/api/v0/createQuestion", .queryParams, params⟩
    match resp with
    | .success body =>
      let url := pyStrip body
      if pyStartswith url fatebookQBase then
        let slug := pyReplaceAll url fatebookQBase ""
        if pyContains slug "--" then
          let parsed := pyRsplitOnce slug "--"
          ("**Question Created Successfully!**\nTitle: " ++ title ++ "\nID: " ++ parsed.2
            ++ "\nURL: " ++ url, [req])
        else
          ("**Question Created Successfully!**\nTitle: " ++ title ++ "\nURL: " ++ url
            ++ "\n(Could not parse question ID from URL format)", [req])
      else
        ("**Question Created Successfully!**\nTitle: " ++ title ++ "\nResponse: " ++ url, [req])
    | .httpError e => ("HTTP error: " ++ e, [req])
    | .exn e => ("Error: " ++ e, [req])

/-- The `add_forecast` tool. -/
def add_forecast (questionId : String) (forecast : ℚ) (apiKey optionId : String)
    (env : Option String) (resp : TextResp) : String × List HttpRequest :=
  let api_key := resolveApiKey apiKey env
  if api_key = "" then (apiKeyError, [])
  else if ¬ (0 ≤ forecast ∧ forecast ≤ 1) then
    ("Error: forecast must be between 0 and 1", [])
  else
    let data := [("questionId", PyVal.s questionId), ("forecast", PyVal.num forecast),
                 ("apiKey", PyVal.s api_key)]
      ++ (if optionId ≠ "" then [("optionId", PyVal.s optionId)] else [])
    let req : HttpRequest := ⟨"POST", "https://fatebook.io/api/v0/addForecast", .jsonBody, data⟩
    match resp with
    | .success body => ("Forecast added successfully: " ++ body, [req])
    | .httpError e => ("HTTP error: " ++ e, [req])
    | .exn e => ("Error: " ++ e, [req])

/-- The `add_comment` tool. -/
def add_comment (questionId comment apiKey : String) (env : Option String)
    (resp : TextResp) : String × List HttpRequest :=
  let api_key := resolveApiKey apiKey env
  if api_key = "" then (apiKeyError, [])
  else
    let data := [("questionId", PyVal.s questionId), ("comment", PyVal.s comment),
                 ("apiKey", PyVal.s api_key)]
    let req : HttpRequest := ⟨"POST", "https://fatebook.io/api/v0/addComment", .jsonBody, data⟩
    match resp with
    | .success body => ("Comment added successfully: " ++ body, [req])
    | .httpError e => ("HTTP error: " ++ e, [req])
    | .exn e => ("Error: " ++ e, [req])

/-- The `delete_question` tool. -/
def delete_question (questionId apiKey : String) (env : Option String)
    (resp : TextResp) : String × List HttpRequest :=
  let api_key := resolveApiKey apiKey env
  if api_key = "" then (apiKeyError, [])
  else
    let params := [("questionId", PyVal.s questionId), ("apiKey", PyVal.s api_key)]
    let req : HttpRequest :=
      ⟨"DELETE", "https://fatebook.io/api/v0/deleteQuestion", .queryParams, params⟩
    match resp with
    | .success body => ("Question deleted successfully: " ++ body, [req])
    | .httpError e => ("HTTP error: " ++ e, [req])
    | .exn e => ("Error: " ++ e, [req])

/-- The `edit_question` tool: optional fields are appended to the JSON body
only when they are non-empty (Python truthiness of the `str` defaults). -/
def edit_question (questionId apiKey title resolveBy notes : String)
    (env : Option String) (resp : TextResp) : String × List HttpRequest :=
  let api_key := resolveApiKey apiKey env
  if api_key = "" then (apiKeyError, [])
  else
    let data := [("questionId", PyVal.s questionId), ("apiKey", PyVal.s api_key)]
      ++ (if title ≠ "" then [("title", PyVal.s title)] else [])
      ++ (if resolveBy ≠ "" then [("resolveBy", PyVal.s resolveBy)] else [])
      ++ (if notes ≠ "" then [("notes", PyVal.s notes)] else [])
    let req : HttpRequest := ⟨"PATCH", "https://fatebook.io/api/v0/editQuestion", .jsonBody, data⟩
    match resp with
    | .success body => ("Question edited successfully: " ++ body, [req])
    | .httpError e => ("HTTP error: " ++ e, [req])
    | .exn e => ("Error: " ++ e, [req])

/-- The `count_forecasts` tool: the only tool with no credential check; it
returns the raw response text wrapped in a fixed message. -/
def count_forecasts (userId : String) (resp : TextResp) : String × List HttpRequest :=
  let req : HttpRequest :=
    ⟨"GET", "https://fatebook.io/api/v0/countForecasts", .queryParams,
      [("userId", PyVal.s userId)]⟩
  match resp with
  | .success body => ("Forecast count data: " ++ body, [req])
  | .httpError e => ("HTTP error: " ++ e, [req])
  | .exn e => ("Error: " ++ e, [req])

/-! Lemmas about the Python string-routine models. -/

theorem isPrefixOf_append_self (p r : List Char) : p.isPrefixOf (p ++ r) = true := by
  induction p with
  | nil => simp [List.isPrefixOf]
  | cons c cs ih => simp [List.isPrefixOf, ih]

theorem isPrefixOf_dropLast (sep : List Char) :
    ∀ X b : List Char, sep.isPrefixOf (X ++ b) = true → sep.length < X.length →
      sep.isPrefixOf X.dropLast = true := by
  induction sep with
  | nil => intro X b _ _; simp [List.isPrefixOf]
  | cons s ss ih =>
    intro X b hpre hlen
    match X with
    | [] => simp at hlen
    | x :: xs =>
      have hxs : xs ≠ [] := by
        intro h
        subst h
        simp at hlen
      rw [List.dropLast_cons_of_ne_nil hxs]
      rw [List.cons_append] at hpre
      simp only [List.isPrefixOf, Bool.and_eq_true] at hpre ⊢
      obtain ⟨hx, hrest⟩ := hpre
      refine ⟨hx, ?_⟩
      exact ih xs b hrest (by simpa using Nat.lt_of_succ_lt_succ hlen)

theorem splitFirst_isSome_of_isPrefixOf {sep s : List Char}
    (h : sep.isPrefixOf s = true) : (splitFirst sep s).isSome = true := by
  cases s with
  | nil => simp [splitFirst, h]
  | cons c cs => simp [splitFirst, h]

theorem splitFirst_isSome_cons {sep cs : List Char} (c : Char)
    (h : (splitFirst sep cs).isSome = true) : (splitFirst sep (c :: cs)).isSome = true := by
  by_cases hp : sep.isPrefixOf (c :: cs) = true
  · simp [splitFirst, hp]
  · simp [splitFirst, hp, h]

theorem splitFirst_isSome_append_left {sep s : List Char}
    (h : (splitFirst sep s).isSome = true) :
    ∀ a : List Char, (splitFirst sep (a ++ s)).isSome = true := by
  intro a
  induction a with
  | nil => simpa using h
  | cons c cs ih => exact splitFirst_isSome_cons c ih

theorem occursB_cons_false {sep cs : List Char} {c : Char}
    (h : occursB sep (c :: cs) = false) : occursB sep cs = false := by
  by_contra hne
  have : occursB sep cs = true := by
    cases hcs : occursB sep cs
    · exact absurd hcs hne
    · rfl
  have := splitFirst_isSome_cons c this
  rw [occursB] at h
  rw [h] at this
  exact Bool.false_ne_true this

theorem splitFirst_append_eq (sep b : List Char) (hsep : sep ≠ []) :
    ∀ a : List Char, occursB sep (a ++ sep.dropLast) = false →
      splitFirst sep (a ++ (sep ++ b)) = some (a, b) := by
  intro a
  induction a with
  | nil =>
    intro _
    match sep, hsep with
    | s :: ss, _ =>
      show splitFirst (s :: ss) ((s :: ss) ++ b) = some ([], b)
      rw [List.cons_append]
      rw [splitFirst]
      rw [if_pos (by rw [← List.cons_append]; exact isPrefixOf_append_self (s :: ss) b)]
      rw [← List.cons_append, List.drop_left]
  | cons c a' ih =>
    intro hno
    have hnp : ¬ sep.isPrefixOf (c :: (a' ++ (sep ++ b))) = true := by
      intro hpre
      have hX : (c :: (a' ++ (sep ++ b))) = ((c :: a') ++ sep) ++ b := by simp
      rw [hX] at hpre
      have hlen : sep.length < ((c :: a') ++ sep).length := by
        simp [List.length_append]
        omega
      have hdl := isPrefixOf_dropLast sep ((c :: a') ++ sep) b hpre hlen
      rw [List.dropLast_append_of_ne_nil _ hsep] at hdl
      have hsome := splitFirst_isSome_of_isPrefixOf hdl
      rw [List.cons_append] at hno
      rw [occursB] at hno
      rw [List.cons_append] at hsome
      rw [hno] at hsome
      exact Bool.false_ne_true hsome
    rw [List.cons_append, splitFirst, if_neg hnp]
    have hno' : occursB sep (a' ++ sep.dropLast) = false := by
      rw [List.cons_append] at hno
      exact occursB_cons_false hno
    rw [ih hno']
    rfl

theorem replaceGo_skip (old new : List Char) :
    ∀ d r : List Char, replaceGo old new (d ++ r) d.length = replaceGo old new r 0 := by
  intro d
  induction d with
  | nil => intro r; rfl
  | cons x d' ih =>
    intro r
    show replaceGo old new (x :: (d' ++ r)) (d'.length + 1) = replaceGo old new r 0
    rw [replaceGo]
    exact ih r

theorem replaceGo_append_self (old new r : List Char) (hold : old ≠ []) :
    replaceGo old new (old ++ r) 0 = new ++ replaceGo old new r 0 := by
  match old, hold with
  | o :: os, _ =>
    show replaceGo (o :: os) new ((o :: os) ++ r) 0 = new ++ replaceGo (o :: os) new r 0
    rw [List.cons_append, replaceGo]
    rw [if_pos ⟨List.cons_ne_nil o os,
      by rw [← List.cons_append]; exact isPrefixOf_append_self (o :: os) r⟩]
    have : (o :: os).length - 1 = os.length := by simp
    rw [this]
    rw [replaceGo_skip (o :: os) new os r]

theorem replaceGo_no_occurrence (old new : List Char) :
    ∀ s : List Char, occursB old s = false → replaceGo old new s 0 = s := by
  intro s
  induction s with
  | nil => intro _; rfl
  | cons c cs ih =>
    intro h
    have hnp : ¬ (old ≠ [] ∧ old.isPrefixOf (c :: cs) = true) := by
      rintro ⟨_, hpre⟩
      have hsome := splitFirst_isSome_of_isPrefixOf hpre
      rw [occursB] at h
      rw [h] at hsome
      exact Bool.false_ne_true hsome
    rw [replaceGo, if_neg hnp, ih (occursB_cons_false h)]

theorem data_ne_nil {p : String} (h : p ≠ "") : p.data ≠ [] := by
  intro hd
  apply h
  cases p with
  | mk l =>
    simp only at hd
    rw [hd]

theorem pyStartswith_append (p r : String) : pyStartswith (p ++ r) p = true := by
  show p.data.isPrefixOf (p ++ r).data = true
  rw [String.data_append]
  exact isPrefixOf_append_self p.data r.data

theorem pyReplaceAll_strips_base (p r : String) (hp : p ≠ "")
    (h : occursB p.data r.data = false) : pyReplaceAll (p ++ r) p "" = r := by
  show (⟨replaceAllL p.data ("" : String).data (p ++ r).data⟩ : String) = r
  rw [show ("" : String).data = [] from rfl, String.data_append, replaceAllL,
    replaceGo_append_self _ _ _ (data_ne_nil hp),
    replaceGo_no_occurrence _ _ _ h, List.nil_append]

theorem pyContains_sep (t i : String) : pyContains (t ++ "--" ++ i) "--" = true := by
  show occursB ("--" : String).data (t ++ "--" ++ i).data = true
  rw [String.data_append, String.data_append, List.append_assoc]
  exact splitFirst_isSome_append_left
    (splitFirst_isSome_of_isPrefixOf
      (isPrefixOf_append_self ("--" : String).data i.data)) t.data

theorem pyRsplitOnce_last (t i : String)
    (h : occursB ("--" : String).data (i.data.reverse ++ [ '-' ]) = false) :
    pyRsplitOnce (t ++ "--" ++ i) "--" = (t, i) := by
  have hrev : (t ++ "--" ++ i).data.reverse
      = i.data.reverse ++ (("--" : String).data ++ t.data.reverse) := by
    rw [String.data_append, String.data_append, List.reverse_append, List.reverse_append,
      show ("--" : String).data.reverse = ("--" : String).data from rfl]
  have h' : occursB ("--" : String).data
      (i.data.reverse ++ ("--" : String).data.dropLast) = false := by
    rw [show (("--" : String).data.dropLast) = [ '-' ] from rfl]
    exact h
  unfold pyRsplitOnce
  rw [show ("--" : String).data.reverse = ("--" : String).data from rfl, hrev,
    splitFirst_append_eq ("--" : String).data t.data.reverse (by decide) i.data.reverse h']
  simp

/-! Claim theorems. -/

/-- Claim C8: for every invocation of `create_question` (credential present,
forecast in range) whose successful response body strips to a well-formed
creation URL `https://fatebook.io/q/<slug>--<id>` — well-formed meaning the
URL base occurs nowhere inside the slug, and the trailing id segment neither
contains `--` nor begins with `-` (the `occursB` hypothesis on the reversed
id says exactly that no `--` occurrence ends inside the id segment) — the
result reports the id recovered after the final `--` separator and the
originally supplied `title` argument, not a title re-derived from the URL
slug (`t` and `title` are unrelated variables here). -/
theorem create_question_parses_creation_url
    (title resolveBy : String) (forecast : ℚ) (apiKey : String)
    (tags : List String) (sharePublicly : Bool) (shareWithLists shareWithEmail : List String)
    (hideForecastsUntil : String) (env : Option String) (body t i : String)
    (hkey : ¬ resolveApiKey apiKey env = "")
    (hf : 0 ≤ forecast ∧ forecast ≤ 1)
    (hbody : pyStrip body = fatebookQBase ++ (t ++ "--" ++ i))
    (hbase : occursB fatebookQBase.data (t ++ "--" ++ i).data = false)
    (hid : occursB ("--" : String).data (i.data.reverse ++ [ '-' ]) = false) :
    (create_question title resolveBy forecast apiKey tags sharePublicly shareWithLists
        shareWithEmail hideForecastsUntil env (TextResp.success body)).1
      = "**Question Created Successfully!**\nTitle: " ++ title ++ "\nID: " ++ i
          ++ "\nURL: " ++ (fatebookQBase ++ (t ++ "--" ++ i)) := by
  simp only [create_question]
  rw [if_neg hkey, if_neg (not_not_intro hf)]
  rw [hbody, if_pos (pyStartswith_append fatebookQBase (t ++ "--" ++ i)),
    pyReplaceAll_strips_base fatebookQBase (t ++ "--" ++ i) (by decide) hbase,
    if_pos (pyContains_sep t i), pyRsplitOnce_last t i hid]

/-- Witness for C8 at a concrete well-formed creation URL. -/
theorem create_question_parses_creation_url_witness :
    (¬ resolveApiKey "k" none = "") ∧
    ((0 : ℚ) ≤ 1 ∧ (1 : ℚ) ≤ 1) ∧
    pyStrip "https://fatebook.io/q/my-title--abc123"
      = fatebookQBase ++ ("my-title" ++ "--" ++ "abc123") ∧
    occursB fatebookQBase.data ("my-title" ++ "--" ++ "abc123").data = false ∧
    occursB ("--" : String).data (("abc123" : String).data.reverse ++ [ '-' ]) = false ∧
    (create_question "My question" "2030-01-01" 1 "k" [] false [] [] "" none
        (TextResp.success "https://fatebook.io/q/my-title--abc123")).1
      = "**Question Created Successfully!**\nTitle: " ++ "My question" ++ "\nID: " ++ "abc123"
          ++ "\nURL: " ++ (fatebookQBase ++ ("my-title" ++ "--" ++ "abc123")) :=
  ⟨by decide, by norm_num, by decide, by decide, by decide,
    create_question_parses_creation_url "My question" "2030-01-01" 1 "k" [] false [] [] ""
      none "https://fatebook.io/q/my-title--abc123" "my-title" "abc123"
      (by decide) (by norm_num) (by decide) (by decide) (by decide)⟩

/-- Claim C5: with a credential present, both `create_question` and
`add_forecast` reject every forecast outside the closed interval from 0 to 1
with the local validation error and an empty request list (no network call),
and for every forecast inside the interval (inclusive on both ends) the
range check passes and exactly one request is issued. -/
theorem forecast_range_validated_locally
    (forecast : ℚ) (title resolveBy apiKey : String) (tags : List String)
    (sharePublicly : Bool) (shareWithLists shareWithEmail : List String)
    (hideForecastsUntil questionId optionId : String) (env : Option String)
    (respC respA : TextResp) (hkey : ¬ resolveApiKey apiKey env = "") :
    ((forecast < 0 ∨ 1 < forecast) →
        create_question title resolveBy forecast apiKey tags sharePublicly shareWithLists
            shareWithEmail hideForecastsUntil env respC
          = ("Error: forecast must be between 0 and 1", []) ∧
        add_forecast questionId forecast apiKey optionId env respA
          = ("Error: forecast must be between 0 and 1", [])) ∧
    ((0 ≤ forecast ∧ forecast ≤ 1) →
        (create_question title resolveBy forecast apiKey tags sharePublicly shareWithLists
            shareWithEmail hideForecastsUntil env respC).2.length = 1 ∧
        (add_forecast questionId forecast apiKey optionId env respA).2.length = 1) := by
  constructor
  · intro hout
    have hneg : ¬ (0 ≤ forecast ∧ forecast ≤ 1) := by
      rcases hout with h | h
      · intro hc
        exact absurd hc.1 (not_le.mpr h)
      · intro hc
        exact absurd hc.2 (not_le.mpr h)
    constructor
    · simp only [create_question]
      rw [if_neg hkey, if_pos hneg]
    · simp only [add_forecast]
      rw [if_neg hkey, if_pos hneg]
  · intro hin
    constructor
    · cases respC with
      | success body =>
        simp only [create_question]
        rw [if_neg hkey, if_neg (not_not_intro hin)]
        split
        · split <;> rfl
        · rfl
      | httpError e =>
        simp only [create_question]
        rw [if_neg hkey, if_neg (not_not_intro hin)]
        rfl
      | exn e =>
        simp only [create_question]
        rw [if_neg hkey, if_neg (not_not_intro hin)]
        rfl
    · cases respA <;>
        (simp only [add_forecast]; rw [if_neg hkey, if_neg (not_not_intro hin)]; rfl)

/-- Witness for C5 at the out-of-range forecast 2. -/
theorem forecast_range_validated_locally_witness :
    (¬ resolveApiKey "k" none = "") ∧ ((2 : ℚ) < 0 ∨ 1 < (2 : ℚ)) ∧
    create_question "T" "2030-01-01" 2 "k" [] false [] [] "" none (TextResp.success "ok")
      = ("Error: forecast must be between 0 and 1", []) ∧
    add_forecast "q1" 2 "k" "" none (TextResp.success "ok")
      = ("Error: forecast must be between 0 and 1", []) :=
  ⟨by decide, by norm_num,
    ((forecast_range_validated_locally 2 "T" "2030-01-01" "k" [] false [] [] "" "q1" "" none
        (TextResp.success "ok") (TextResp.success "ok") (by decide)).1
      (by norm_num)).1,
    ((forecast_range_validated_locally 2 "T" "2030-01-01" "k" [] false [] [] "" "q1" "" none
        (TextResp.success "ok") (TextResp.success "ok") (by decide)).1
      (by norm_num)).2⟩

/-- Claim C6: with a credential present, `resolve_question` rejects every
resolution string outside `valid_resolutions` with the local validation
error and an empty request list (no network call); for a member of the list
the check passes and exactly one request is issued. -/
theorem resolution_validated_locally
    (questionId resolution questionType apiKey : String) (env : Option String)
    (resp : TextResp) (hkey : ¬ resolveApiKey apiKey env = "") :
    (resolution ∉ valid_resolutions →
        resolve_question questionId resolution questionType apiKey env resp
          = ("Error: resolution must be one of ['YES', 'NO', 'AMBIGUOUS']", [])) ∧
    (resolution ∈ valid_resolutions →
        (resolve_question questionId resolution questionType apiKey env resp).2.length = 1) := by
  constructor
  · intro hnot
    simp only [resolve_question]
    rw [if_neg hkey, if_pos hnot]
  · intro hmem
    simp only [resolve_question]
    rw [if_neg hkey, if_neg (not_not_intro hmem)]
    cases resp <;> simp

/-- Witness for C6 at the invalid resolution string MAYBE. -/
theorem resolution_validated_locally_witness :
    (¬ resolveApiKey "k" none = "") ∧ ("MAYBE" ∉ valid_resolutions) ∧
    resolve_question "q1" "MAYBE" "BINARY" "k" none (TextResp.success "ok")
      = ("Error: resolution must be one of ['YES', 'NO', 'AMBIGUOUS']", []) :=
  ⟨by decide, by decide,
    (resolution_validated_locally "q1" "MAYBE" "BINARY" "k" none (TextResp.success "ok")
      (by decide)).1 (by decide)⟩

/-- Claim C10: in `create_question`, `resolve_question` and `add_forecast`
the credential check runs before local argument validation: with an empty
per-call key and no environment key the result is the missing-credential
error with no request issued, for every forecast value and every resolution
string, so the local validation error is never produced in that case. -/
theorem credential_check_precedes_validation (env : Option String)
    (henv : resolveApiKey "" env = "") :
    (∀ (title resolveBy : String) (forecast : ℚ) (tags : List String) (sharePublicly : Bool)
        (shareWithLists shareWithEmail : List String) (hideForecastsUntil : String)
        (resp : TextResp),
        create_question title resolveBy forecast "" tags sharePublicly shareWithLists
          shareWithEmail hideForecastsUntil env resp = (apiKeyError, [])) ∧
    (∀ (questionId resolution questionType : String) (resp : TextResp),
        resolve_question questionId resolution questionType "" env resp = (apiKeyError, [])) ∧
    (∀ (questionId : String) (forecast : ℚ) (optionId : String) (resp : TextResp),
        add_forecast questionId forecast "" optionId env resp = (apiKeyError, [])) := by
  refine ⟨?_, ?_, ?_⟩
  · intro title resolveBy forecast tags sharePublicly shareWithLists shareWithEmail
      hideForecastsUntil resp
    simp only [create_question]
    rw [if_pos henv]
  · intro questionId resolution questionType resp
    simp only [resolve_question]
    rw [if_pos henv]
  · intro questionId forecast optionId resp
    simp only [add_forecast]
    rw [if_pos henv]

/-- Witness for C10: an out-of-range forecast and an invalid resolution both
yield the missing-credential error, not the validation error. -/
theorem credential_check_precedes_validation_witness :
    resolveApiKey "" none = "" ∧
    create_question "T" "2030-01-01" 2 "" [] false [] [] "" none (TextResp.success "ok")
      = (apiKeyError, []) ∧
    resolve_question "q1" "MAYBE" "BINARY" "" none (TextResp.success "ok")
      = (apiKeyError, []) ∧
    add_forecast "q1" 2 "" "" none (TextResp.success "ok") = (apiKeyError, []) :=
  ⟨rfl,
    (credential_check_precedes_validation none rfl).1 "T" "2030-01-01" 2 [] false [] [] ""
      (TextResp.success "ok"),
    (credential_check_precedes_validation none rfl).2.1 "q1" "MAYBE" "BINARY"
      (TextResp.success "ok"),
    (credential_check_precedes_validation none rfl).2.2 "q1" 2 "" (TextResp.success "ok")⟩

/-- Claim C9: every request issued by `edit_question` contains the required
`questionId` key, and contains each optional key (`title`, `resolveBy`,
`notes`) if and only if that argument is non-empty — an unsupplied optional
field (empty default) is omitted entirely, never sent as an empty value. -/
theorem edit_question_omits_empty_optionals
    (questionId apiKey title resolveBy notes : String) (env : Option String)
    (resp : TextResp) (hkey : ¬ resolveApiKey apiKey env = "") :
    ∀ r ∈ (edit_question questionId apiKey title resolveBy notes env resp).2,
      ("questionId" ∈ r.payload.map Prod.fst) ∧
      (("title" ∈ r.payload.map Prod.fst) ↔ ¬ title = "") ∧
      (("resolveBy" ∈ r.payload.map Prod.fst) ↔ ¬ resolveBy = "") ∧
      (("notes" ∈ r.payload.map Prod.fst) ↔ ¬ notes = "") := by
  intro r hr
  simp only [edit_question] at hr
  rw [if_neg hkey] at hr
  cases resp <;> simp at hr <;> subst hr <;>
    by_cases h1 : title = "" <;> by_cases h2 : resolveBy = "" <;> by_cases h3 : notes = "" <;>
      simp [h1, h2, h3]

/-- Witness for C9 with `title` supplied and `resolveBy`, `notes` left empty:
the issued request contains a `title` key and no `notes` key. -/
theorem edit_question_omits_empty_optionals_witness :
    (¬ resolveApiKey "k" none = "") ∧
    (("notes" ∈ (HttpRequest.mk "PATCH" "https://fatebook.io/api/v0/editQuestion"
        BodyKind.jsonBody [("questionId", PyVal.s "q"), ("apiKey", PyVal.s "k"),
          ("title", PyVal.s "T")]).payload.map Prod.fst) ↔ ¬ ("" : String) = "") :=
  ⟨by decide,
    (edit_question_omits_empty_optionals "q" "k" "T" "" "" none (TextResp.success "ok")
      (by decide)
      (HttpRequest.mk "PATCH" "https://fatebook.io/api/v0/editQuestion"
        BodyKind.jsonBody [("questionId", PyVal.s "q"), ("apiKey", PyVal.s "k"),
          ("title", PyVal.s "T")])
      (by decide)).2.2.2⟩

/-- Claim C7: the key used is the non-empty per-call argument, else the
environment default; every credential-requiring tool (all except
`count_forecasts`) fails with the missing-credential error and issues no
request when the resolved key is empty, and every request any of them does
issue carries the resolved key as its `apiKey` entry. -/
theorem credential_resolution_and_gating (apiKey : String) (env : Option String) :
    (¬ apiKey = "" → resolveApiKey apiKey env = apiKey) ∧
    (apiKey = "" → resolveApiKey apiKey env = env.getD "") ∧
    (resolveApiKey apiKey env = "" →
      (∀ (resolved unresolved : Bool) (searchString : String) (limit : Int) (cursor : String)
          (resp : QuestionsResp),
          list_questions apiKey resolved unresolved searchString limit cursor env resp
            = (apiKeyError, [])) ∧
      (∀ (questionId : String) (resp : QuestionResp),
          get_question questionId apiKey env resp = (apiKeyError, [])) ∧
      (∀ (questionId resolution questionType : String) (resp : TextResp),
          resolve_question questionId resolution questionType apiKey env resp
            = (apiKeyError, [])) ∧
      (∀ (title resolveBy : String) (forecast : ℚ) (tags : List String) (sharePublicly : Bool)
          (shareWithLists shareWithEmail : List String) (hideForecastsUntil : String)
          (resp : TextResp),
          create_question title resolveBy forecast apiKey tags sharePublicly shareWithLists
            shareWithEmail hideForecastsUntil env resp = (apiKeyError, [])) ∧
      (∀ (questionId : String) (forecast : ℚ) (optionId : String) (resp : TextResp),
          add_forecast questionId forecast apiKey optionId env resp = (apiKeyError, [])) ∧
      (∀ (questionId comment : String) (resp : TextResp),
          add_comment questionId comment apiKey env resp = (apiKeyError, [])) ∧
      (∀ (questionId : String) (resp : TextResp),
          delete_question questionId apiKey env resp = (apiKeyError, [])) ∧
      (∀ (questionId title resolveBy notes : String) (resp : TextResp),
          edit_question questionId apiKey title resolveBy notes env resp = (apiKeyError, []))) ∧
    (∀ (resolved unresolved : Bool) (searchString : String) (limit : Int) (cursor : String)
        (resp : QuestionsResp),
        sentWithKey (resolveApiKey apiKey env)
          (list_questions apiKey resolved unresolved searchString limit cursor env resp)) ∧
    (∀ (questionId : String) (resp : QuestionResp),
        sentWithKey (resolveApiKey apiKey env) (get_question questionId apiKey env resp)) ∧
    (∀ (questionId resolution questionType : String) (resp : TextResp),
        sentWithKey (resolveApiKey apiKey env)
          (resolve_question questionId resolution questionType apiKey env resp)) ∧
    (∀ (title resolveBy : String) (forecast : ℚ) (tags : List String) (sharePublicly : Bool)
        (shareWithLists shareWithEmail : List String) (hideForecastsUntil : String)
        (resp : TextResp),
        sentWithKey (resolveApiKey apiKey env)
          (create_question title resolveBy forecast apiKey tags sharePublicly shareWithLists
            shareWithEmail hideForecastsUntil env resp)) ∧
    (∀ (questionId : String) (forecast : ℚ) (optionId : String) (resp : TextResp),
        sentWithKey (resolveApiKey apiKey env)
          (add_forecast questionId forecast apiKey optionId env resp)) ∧
    (∀ (questionId comment : String) (resp : TextResp),
        sentWithKey (resolveApiKey apiKey env) (add_comment questionId comment apiKey env resp)) ∧
    (∀ (questionId : String) (resp : TextResp),
        sentWithKey (resolveApiKey apiKey env) (delete_question questionId apiKey env resp)) ∧
    (∀ (questionId title resolveBy notes : String) (resp : TextResp),
        sentWithKey (resolveApiKey apiKey env)
          (edit_question questionId apiKey title resolveBy notes env resp)) := by
  refine ⟨?_, ?_, ?_, ?_, ?_, ?_, ?_, ?_, ?_, ?_, ?_⟩
  · intro h
    simp only [resolveApiKey]
    rw [if_pos h]
  · intro h
    simp only [resolveApiKey]
    rw [if_neg (not_not_intro h)]
  · intro h
    refine ⟨?_, ?_, ?_, ?_, ?_, ?_, ?_, ?_⟩
    · intro resolved unresolved searchString limit cursor resp
      simp only [list_questions]
      rw [if_pos h]
    · intro questionId resp
      simp only [get_question]
      rw [if_pos h]
    · intro questionId resolution questionType resp
      simp only [resolve_question]
      rw [if_pos h]
    · intro title resolveBy forecast tags sharePublicly shareWithLists shareWithEmail
        hideForecastsUntil resp
      simp only [create_question]
      rw [if_pos h]
    · intro questionId forecast optionId resp
      simp only [add_forecast]
      rw [if_pos h]
    · intro questionId comment resp
      simp only [add_comment]
      rw [if_pos h]
    · intro questionId resp
      simp only [delete_question]
      rw [if_pos h]
    · intro questionId title resolveBy notes resp
      simp only [edit_question]
      rw [if_pos h]
  · intro resolved unresolved searchString limit cursor resp r hr
    by_cases hk : resolveApiKey apiKey env = ""
    · simp only [list_questions] at hr
      rw [if_pos hk] at hr
      simp at hr
    · cases resp with
      | success items =>
        simp only [list_questions] at hr
        rw [if_neg hk] at hr
        split at hr <;> simp at hr <;> subst hr <;> simp [lookupKey]
      | httpError e =>
        simp only [list_questions] at hr
        rw [if_neg hk] at hr
        simp at hr
        subst hr
        simp [lookupKey]
      | exn e =>
        simp only [list_questions] at hr
        rw [if_neg hk] at hr
        simp at hr
        subst hr
        simp [lookupKey]
  · intro questionId resp r hr
    by_cases hk : resolveApiKey apiKey env = ""
    · simp only [get_question] at hr
      rw [if_pos hk] at hr
      simp at hr
    · cases resp <;> simp only [get_question] at hr <;> rw [if_neg hk] at hr <;>
        simp at hr <;> subst hr <;> simp [lookupKey]
  · intro questionId resolution questionType resp r hr
    by_cases hk : resolveApiKey apiKey env = ""
    · simp only [resolve_question] at hr
      rw [if_pos hk] at hr
      simp at hr
    · by_cases hv : resolution ∉ valid_resolutions
      · simp only [resolve_question] at hr
        rw [if_neg hk, if_pos hv] at hr
        simp at hr
      · cases resp <;> simp only [resolve_question] at hr <;>
          rw [if_neg hk, if_neg hv] at hr <;> simp at hr <;> subst hr <;> simp [lookupKey]
  · intro title resolveBy forecast tags sharePublicly shareWithLists shareWithEmail
      hideForecastsUntil resp r hr
    by_cases hk : resolveApiKey apiKey env = ""
    · simp only [create_question] at hr
      rw [if_pos hk] at hr
      simp at hr
    · by_cases hf : ¬ (0 ≤ forecast ∧ forecast ≤ 1)
      · simp only [create_question] at hr
        rw [if_neg hk, if_pos hf] at hr
        simp at hr
      · cases resp with
        | success body =>
          simp only [create_question] at hr
          rw [if_neg hk, if_neg hf] at hr
          split at hr
          · split at hr <;> simp at hr <;> subst hr <;> simp [lookupKey]
          · simp at hr
            subst hr
            simp [lookupKey]
        | httpError e =>
          simp only [create_question] at hr
          rw [if_neg hk, if_neg hf] at hr
          simp at hr
          subst hr
          simp [lookupKey]
        | exn e =>
          simp only [create_question] at hr
          rw [if_neg hk, if_neg hf] at hr
          simp at hr
          subst hr
          simp [lookupKey]
  · intro questionId forecast optionId resp r hr
    by_cases hk : resolveApiKey apiKey env = ""
    · simp only [add_forecast] at hr
      rw [if_pos hk] at hr
      simp at hr
    · by_cases hf : ¬ (0 ≤ forecast ∧ forecast ≤ 1)
      · simp only [add_forecast] at hr
        rw [if_neg hk, if_pos hf] at hr
        simp at hr
      · cases resp <;> simp only [add_forecast] at hr <;> rw [if_neg hk, if_neg hf] at hr <;>
          simp at hr <;> subst hr <;> simp [lookupKey]
  · intro questionId comment resp r hr
    by_cases hk : resolveApiKey apiKey env = ""
    · simp only [add_comment] at hr
      rw [if_pos hk] at hr
      simp at hr
    · cases resp <;> simp only [add_comment] at hr <;> rw [if_neg hk] at hr <;>
        simp at hr <;> subst hr <;> simp [lookupKey]
  · intro questionId resp r hr
    by_cases hk : resolveApiKey apiKey env = ""
    · simp only [delete_question] at hr
      rw [if_pos hk] at hr
      simp at hr
    · cases resp <;> simp only [delete_question] at hr <;> rw [if_neg hk] at hr <;>
        simp at hr <;> subst hr <;> simp [lookupKey]
  · intro questionId title resolveBy notes resp r hr
    by_cases hk : resolveApiKey apiKey env = ""
    · simp only [edit_question] at hr
      rw [if_pos hk] at hr
      simp at hr
    · cases resp <;> simp only [edit_question] at hr <;> rw [if_neg hk] at hr <;>
        simp at hr <;> subst hr <;> simp [lookupKey]

/-- Witness for C7: with no per-call and no environment key, a
credential-requiring tool returns the missing-credential error without a
request, and a non-empty per-call key wins the resolution. -/
theorem credential_resolution_and_gating_witness :
    resolveApiKey "" none = "" ∧
    list_questions "" false false "" 100 "" none (QuestionsResp.success none)
      = (apiKeyError, []) ∧
    delete_question "q1" "" none (TextResp.success "ok") = (apiKeyError, []) ∧
    resolveApiKey "key1" (some "key2") = "key1" :=
  ⟨rfl,
    ((credential_resolution_and_gating "" none).2.2.1 rfl).1 false false "" 100 ""
      (QuestionsResp.success none),
    ((credential_resolution_and_gating "" none).2.2.1 rfl).2.2.2.2.2.2.1 "q1"
      (TextResp.success "ok"),
    (credential_resolution_and_gating "key1" (some "key2")).1 (by decide)⟩

/-- Claim C1 (refuted by the code): on an HTTP-successful but malformed
response body — one that does not start with the creation-URL base, or one
with no `--` separator — `create_question` does not fail with a
response-shape failure: it returns a partial success message beginning
`**Question Created Successfully!**`, in the first case echoing the raw
body and in the second noting only parenthetically that no id could be
parsed. -/
theorem create_question_malformed_body_reports_success :
    (create_question "T" "2030-01-01" 1 "k" [] false [] [] "" none
        (TextResp.success "Internal Server Error")).1
      = "**Question Created Successfully!**\nTitle: T\nResponse: Internal Server Error" ∧
    (create_question "T" "2030-01-01" 1 "k" [] false [] [] "" none
        (TextResp.success "https://fatebook.io/q/no-separator")).1
      = "**Question Created Successfully!**\nTitle: T\nURL: https://fatebook.io/q/no-separator"
          ++ "\n(Could not parse question ID from URL format)" := by
  constructor <;> decide

/-- Claim C2 (refuted by the code): when the remote payload omits the `id`
field, `get_question` does not inject the requested questionId `q1` into
its result; the returned detailed view reads `ID: N/A`. -/
theorem get_question_does_not_inject_id :
    (get_question "q1" "k" none (QuestionResp.success
        { title := some "T", createdAt := some "2024-01-01",
          resolveBy := some "2030-01-01" })).1
      = "**T**\nID: N/A\nType: N/A\nCreated: 2024-01-01\nResolve By: 2030-01-01\nStatus: ⏳ Open"
    := by
  decide

/-- Claim C3 (refuted by the code): on HTTP success `resolve_question`
returns the string `Question resolved successfully: <body>`, not the boolean
value true that the spec (and the repository's own test client, which checks
for the text `true`) declares. -/
theorem resolve_question_returns_wrapped_string :
    resolve_question "q1" "YES" "BINARY" "k" none (TextResp.success "ok")
      = ("Question resolved successfully: ok",
         [⟨"POST", "https://fatebook.io/api/v0/resolveQuestion", BodyKind.jsonBody,
           [("questionId", PyVal.s "q1"), ("resolution", PyVal.s "YES"),
            ("questionType", PyVal.s "BINARY"), ("apiKey", PyVal.s "k")]⟩]) := by
  decide

/-- Claim C4 (half refuted by the code): `count_forecasts` indeed performs
no credential check — its single request carries only `userId` — but on
HTTP success it returns the raw response text wrapped in a fixed message
rather than extracting the `count` field as an integer (with default 0). -/
theorem count_forecasts_returns_raw_text :
    count_forecasts "u1" (TextResp.success "\x7b\"count\": 5\x7d")
      = ("Forecast count data: \x7b\"count\": 5\x7d",
         [⟨"GET", "https://fatebook.io/api/v0/countForecasts", BodyKind.queryParams,
           [("userId", PyVal.s "u1")]⟩]) := by
  decide

end Fatebook
